import Mathlib

set_option autoImplicit false

/-!
Verification development for the auth0 server-side SDK core
(packages/auth0_server_python): the TransactionStore/StateStore
persistence layer (src/store/memory.py) and the ServerClient
token-lifecycle policy.  Pure shallow embedding: stores are association
lists from identifiers to sealed records, time is an explicit `Nat`
epoch-seconds parameter, and the injected encryption capability is
modelled as a transparent seal carrying the key and optional expiration
it was sealed with.
-/

/-! ## Data model (spec section 3) -/

/-- Entry of `StateData.token_sets`: one access-token record per audience. -/
structure TokenSet where
  audience : String
  access_token : String
  expires_at : Nat
  scope : Option String
deriving DecidableEq, Repr

/-- Entry of `StateData.connection_token_sets`: one record per connection. -/
structure ConnectionTokenSet where
  connection : String
  access_token : String
  expires_at : Nat
  scope : Option String
deriving DecidableEq, Repr

/-- Internal bookkeeping of a session: session id and optional refresh token. -/
structure InternalData where
  sid : String
  refresh_token : Option String
deriving DecidableEq, Repr

/-- One authenticated session.  `user` is the ID-token claims mapping
(string-valued claims suffice for the properties below). -/
structure StateData where
  user : List (String × String)
  id_token : String
  internal : InternalData
  token_sets : List TokenSet
  connection_token_sets : List ConnectionTokenSet
deriving DecidableEq, Repr

/-- One in-flight login/link attempt (spec section 3).  `app_state` is kept
opaque (a caller-supplied blob round-tripped to completion). -/
structure TransactionData where
  code_verifier : String
  state : String
  nonce : Option String
  app_state : Option String
  audience : Option String
  organization : Option String
deriving DecidableEq, Repr

/-- Error taxonomy of the engine (spec section 7). -/
inductive ServerError where
  | missingRequiredArgument (msg : String)
  | missingTransaction (msg : String)
  | startLinkUser (msg : String)
  | accessTokenForConnection (msg : String)
  | backchannelLogout (msg : String)
  | storeOptions (msg : String)
  | api (msg : String)
deriving DecidableEq, Repr

/-! ## The sealed-record capability

Modelled from the spec: the encryption primitive is excluded from the core
and treated as an injected capability (spec sections 1 and 6):
`encrypt(key, plaintext, expiration?) -> sealed`,
`decrypt(key, sealed) -> plaintext | fails`; unsealing failure is the sole
signal of "expired or tampered".  The abstract store base class that hosts
these helpers (`store/abstract.py`) is not part of the sources verified
here, so a seal is modelled transparently: it remembers the key and the
optional absolute expiration it was created with, and unsealing fails
exactly when the key differs (tampered / wrong identifier) or the clock
has passed the expiration. -/
structure Sealed (α : Type) where
  key : String
  payload : α
  expiration : Option Nat
deriving DecidableEq, Repr

/-- Whether a seal is still within its (optional) expiration at time `now`. -/
def Sealed.notExpired {α : Type} (s : Sealed α) (now : Nat) : Bool :=
  match s.expiration with
  | none => true
  | some e => now < e

/-- Modelled from the spec: `decrypt(key, sealed) -> plaintext | fails`
(spec section 6); fails on key mismatch or elapsed expiration. -/
def Sealed.decrypt {α : Type} (s : Sealed α) (now : Nat) (key : String) : Option α :=
  if s.key == key && s.notExpired now then some s.payload else none

/-- Backing dictionary of an in-memory store: identifier to sealed record
(`MemoryStore._data` in src/store/memory.py). -/
abbrev StoreData (α : Type) := List (String × Sealed α)

/-! ## MemoryStore operations (src/store/memory.py) -/

/-- `MemoryStore.delete` (memory.py lines 22-31): remove the identifier if
present; idempotent, no error if absent. -/
def MemoryStore.delete {α : Type} (data : StoreData α) (identifier : String) : StoreData α :=
  data.filter (fun kv => kv.1 != identifier)

/-- Python dict assignment `self._data[identifier] = value`: replaces any
existing entry for the identifier. -/
def dictSet {α : Type} (data : StoreData α) (identifier : String) (value : Sealed α) :
    StoreData α :=
  (identifier, value) :: MemoryStore.delete data identifier

/-- `MemoryStateStore.set` (memory.py lines 51-73): seals the state under
the identifier and stores it.  Faithful to the source: `self.encrypt` is
called with no expiration argument — the `absolute_duration` accepted by
`MemoryStateStore.__init__` (default 259200 seconds) is stored on the
instance but never consulted by `set`, so the seal carries no expiration. -/
def MemoryStateStore.set (data : StoreData StateData) (identifier : String)
    (state : StateData) : StoreData StateData :=
  dictSet data identifier ⟨identifier, state, none⟩

/-- `MemoryStateStore.get` (memory.py lines 75-103): absent identifier
yields none; a record that fails to unseal is deleted and none is
returned; otherwise the payload is returned with the store unchanged.
Returns (result, updated store). -/
def MemoryStateStore.get (now : Nat) (data : StoreData StateData) (identifier : String) :
    Option StateData × StoreData StateData :=
  match data.lookup identifier with
  | none => (none, data)
  | some enc =>
    match enc.decrypt now identifier with
    | some d => (some d, data)
    | none => (none, MemoryStore.delete data identifier)

/-- Claims extracted from a backchannel logout token; either claim may be
absent. -/
structure LogoutClaims where
  sub : Option String
  sid : Option String
deriving DecidableEq, Repr

/-- Python truthiness check `not value` for an optional string claim:
absent and the empty string are both falsy. -/
def strFalsy : Option String → Bool
  | none => true
  | some s => s == ""

/-- Match test performed for each stored record during the logout scan
(memory.py lines 129-140): a record that unseals is a delete candidate
when its `internal.sid` equals the token's `sid` and its `user.sub` equals
the token's `sub`; a record that fails to unseal is a delete candidate
unconditionally (fail-safe). -/
def logoutMatches (now : Nat) (sub sid : String) (identifier : String)
    (enc : Sealed StateData) : Bool :=
  match enc.decrypt now identifier with
  | some d => d.internal.sid == sid && d.user.lookup "sub" == some sub
  | none => true

/-- `MemoryStateStore.delete_by_logout_token` (memory.py lines 105-144):
returns immediately when `sub` or `sid` is falsy; otherwise collects the
identifiers of all matching (or undecryptable) records and deletes them. -/
def MemoryStateStore.delete_by_logout_token (now : Nat) (data : StoreData StateData)
    (claims : LogoutClaims) : StoreData StateData :=
  if strFalsy claims.sub || strFalsy claims.sid then data
  else
    let sub := claims.sub.getD ""
    let sid := claims.sid.getD ""
    let to_delete :=
      (data.filter (fun kv => logoutMatches now sub sid kv.1 kv.2)).map Prod.fst
    to_delete.foldl (fun d identifier => MemoryStore.delete d identifier) data

/-- `MemoryTransactionStore.set` (memory.py lines 162-186): seals the
transaction with a fixed 60-second expiration from the current time. -/
def MemoryTransactionStore.set (now : Nat) (data : StoreData TransactionData)
    (identifier : String) (value : TransactionData) : StoreData TransactionData :=
  dictSet data identifier ⟨identifier, value, some (now + 60)⟩

/-- `MemoryTransactionStore.get` (memory.py lines 188-216): same
self-healing read as the state store. -/
def MemoryTransactionStore.get (now : Nat) (data : StoreData TransactionData)
    (identifier : String) : Option TransactionData × StoreData TransactionData :=
  match data.lookup identifier with
  | none => (none, data)
  | some enc =>
    match enc.decrypt now identifier with
    | some d => (some d, data)
    | none => (none, MemoryStore.delete data identifier)

deriving instance DecidableEq for Except

/-! ## ServerClient — token caching and refresh policy

The orchestrator `auth_server/server_client.py` is exercised by the
repository only through its tests; the operations below are therefore
modelled from the spec (section 4.2), with the network exchanges injected
as function parameters.  Each operation returns
(result, updated session state, number of network exchanges performed). -/

/-- Token response of a refresh / token-exchange grant. -/
structure TokenResponse where
  access_token : String
  expires_in : Nat
deriving DecidableEq, Repr

/-- Replace-by-key upsert (spec sections 3 and 4.2: "a refresh/fetch
replaces the existing record", "replace-by-connection-key, not append"). -/
def upsertBy {α : Type} (key : α → String) (x : α) : List α → List α
  | [] => [x]
  | t :: tl => if key t = key x then x :: tl else t :: upsertBy key x tl

/-- Modelled from the spec: the refresh-token branch of
`ServerClient.get_access_token` (spec section 4.2): fails when no refresh
token is available; otherwise performs one refresh exchange, replaces the
audience's entry in `token_sets` and returns the new token. -/
def refreshTokenPath (refresh : String → String → TokenResponse) (now : Nat)
    (audience : String) (st : StateData) :
    Except ServerError String × StateData × Nat :=
  if strFalsy st.internal.refresh_token then
    (Except.error (ServerError.api "Failed to refresh the access token"), st, 0)
  else
    let rt := st.internal.refresh_token.getD ""
    let r := refresh rt audience
    let nts : TokenSet := ⟨audience, r.access_token, now + r.expires_in, none⟩
    (Except.ok r.access_token,
      { st with token_sets := upsertBy TokenSet.audience nts st.token_sets }, 1)

/-- Modelled from the spec: `ServerClient.get_access_token` (spec section
4.2): a cached entry for the requested audience whose `expires_at` is
strictly in the future is returned directly with no network call; an
expired or absent entry falls through to the refresh path. -/
def get_access_token (refresh : String → String → TokenResponse) (now : Nat)
    (audience : String) (st : StateData) :
    Except ServerError String × StateData × Nat :=
  match st.token_sets.find? (fun t => t.audience == audience) with
  | some ts =>
    if now < ts.expires_at then (Except.ok ts.access_token, st, 0)
    else refreshTokenPath refresh now audience st
  | none => refreshTokenPath refresh now audience st

/-- Modelled from the spec: the minting branch of
`ServerClient.get_access_token_for_connection` (spec section 4.2 and the
test suite): fails with `AccessTokenForConnectionError`
("A refresh token was not found") when no refresh token is available;
otherwise performs one token-exchange grant and upserts the connection's
entry. -/
def mintConnectionToken (exchange : String → String → TokenResponse) (now : Nat)
    (connection : String) (st : StateData) :
    Except ServerError String × StateData × Nat :=
  if strFalsy st.internal.refresh_token then
    (Except.error (ServerError.accessTokenForConnection "A refresh token was not found"),
      st, 0)
  else
    let rt := st.internal.refresh_token.getD ""
    let r := exchange rt connection
    let ncts : ConnectionTokenSet := ⟨connection, r.access_token, now + r.expires_in, none⟩
    (Except.ok r.access_token,
      { st with connection_token_sets :=
          upsertBy ConnectionTokenSet.connection ncts st.connection_token_sets }, 1)

/-- Modelled from the spec: `ServerClient.get_access_token_for_connection`
(spec section 4.2): identical caching policy to `get_access_token`,
against `connection_token_sets` keyed by `connection`. -/
def get_access_token_for_connection (exchange : String → String → TokenResponse)
    (now : Nat) (connection : String) (st : StateData) :
    Except ServerError String × StateData × Nat :=
  match st.connection_token_sets.find? (fun c => c.connection == connection) with
  | some cts =>
    if now < cts.expires_at then (Except.ok cts.access_token, st, 0)
    else mintConnectionToken exchange now connection st
  | none => mintConnectionToken exchange now connection st

/-! ## ServerClient — flows -/

/-- Static configuration of the client (domain, client id, client secret). -/
structure ClientConfig where
  domain : String
  client_id : String
  client_secret : String
deriving DecidableEq, Repr

/-- Split a character list on a separator character (the pieces between
occurrences of the separator, in order). -/
def splitOnChar (sep : Char) : List Char → List (List Char)
  | [] => [[]]
  | c :: cs =>
    if c = sep then [] :: splitOnChar sep cs
    else
      match splitOnChar sep cs with
      | [] => [[c]]
      | h :: t => (c :: h) :: t

/-- Parse one `key=value` query parameter. -/
def splitParam (p : List Char) : String × String :=
  match splitOnChar '=' p with
  | [] => ("", "")
  | [k] => (String.mk k, "")
  | k :: v :: _ => (String.mk k, String.mk v)

/-- Query parameters of a callback URL: the part after the first `?`,
split on `&` and then on `=`. -/
def queryParams (url : String) : List (String × String) :=
  match splitOnChar '?' url.data with
  | _ :: q :: _ => (splitOnChar '&' q).map splitParam
  | _ => []

/-- Result of the authorization-code exchange performed at flow
completion: issued tokens plus the ID-token claims the engine consumes. -/
structure TokenExchangeResult where
  access_token : String
  id_token : String
  expires_in : Nat
  refresh_token : Option String
  sub : String
  sid : String
deriving DecidableEq, Repr

/-- Fresh session state built from the ID-token claims and issued tokens
at flow completion (spec section 4.2). -/
def buildStateData (now : Nat) (audience : String) (r : TokenExchangeResult) : StateData :=
  ⟨[("sub", r.sub)], r.id_token, ⟨r.sid, r.refresh_token⟩,
    [⟨audience, r.access_token, now + r.expires_in, none⟩], []⟩

/-- Modelled from the spec: `ServerClient.complete_interactive_login`
(spec section 4.2): parses `code` and `state` from the callback URL, loads
the matching transaction via `MemoryTransactionStore.get` (failing with
`MissingTransactionError` when absent — expired, already consumed and
forged callbacks are indistinguishable), exchanges the code using the
saved PKCE verifier, persists a fresh session via `MemoryStateStore.set`,
deletes the transaction and returns the transaction's `app_state`. -/
def complete_interactive_login (exchange : String → String → TokenExchangeResult)
    (now : Nat) (sessionId : String) (txStore : StoreData TransactionData)
    (stateStore : StoreData StateData) (callback_url : String) :
    Except ServerError (Option String × StoreData TransactionData × StoreData StateData) :=
  let params := queryParams callback_url
  match params.lookup "code", params.lookup "state" with
  | some code, some state =>
    match MemoryTransactionStore.get now txStore state with
    | (some tx, txStore2) =>
      let r := exchange code tx.code_verifier
      let newState := buildStateData now (tx.audience.getD "default") r
      let stateStore2 := MemoryStateStore.set stateStore sessionId newState
      let txStore3 := MemoryStore.delete txStore2 state
      Except.ok (tx.app_state, txStore3, stateStore2)
    | (none, _) => Except.error (ServerError.missingTransaction "The transaction is missing.")
  | _, _ => Except.error (ServerError.missingTransaction "The transaction is missing.")

/-- Hexadecimal digit for percent-encoding (uppercase, as produced by the
standard quoting used for the returnTo parameter). -/
def hexDigit (n : Nat) : Char :=
  if n < 10 then Char.ofNat (48 + n) else Char.ofNat (55 + n)

/-- Characters left untouched by percent-encoding. -/
def isUnreserved (c : Char) : Bool :=
  c.isAlphanum || c == '-' || c == '_' || c == '.' || c == '~'

/-- Percent-encode one (ASCII) character. -/
def percentEncodeChar (c : Char) : String :=
  if isUnreserved c then String.singleton c
  else
    "%" ++ String.singleton (hexDigit (c.toNat / 16))
      ++ String.singleton (hexDigit (c.toNat % 16))

/-- URL-encode a string (sufficient for the ASCII returnTo targets the
properties quantify over). -/
def urlEncode (s : String) : String :=
  String.join (s.data.map percentEncodeChar)

/-- Modelled from the spec: `ServerClient.logout` (spec section 4.2):
deletes the session record from the StateStore unconditionally (idempotent
— no error if already absent) and returns the identity provider's logout
URL carrying the configured client id and the URL-encoded returnTo
target.  Deletion happens on the store before the URL is produced, which
in this pure embedding means the returned store always has the session
removed, whatever the URL is used for. -/
def ServerClient.logout (cfg : ClientConfig) (store : StoreData StateData)
    (sessionId : String) (return_to : String) : String × StoreData StateData :=
  let store2 := MemoryStore.delete store sessionId
  ("https://" ++ cfg.domain ++ "/v2/logout?client_id=" ++ cfg.client_id
      ++ "&returnTo=" ++ urlEncode return_to, store2)

/-- Decoded backchannel logout token: the events claim (a list of event
URIs) plus the optional `sub` and `sid` claims. -/
structure DecodedLogoutToken where
  events : List String
  sub : Option String
  sid : Option String
deriving DecidableEq, Repr

/-- The OIDC backchannel-logout event URI the engine requires. -/
def backchannelLogoutEvent : String := "http://schemas.openid.net/event/backchannel-logout"

/-- Modelled from the spec: `ServerClient.handle_backchannel_logout`
(spec section 4.2): fails with `BackchannelLogoutError`
("Missing logout token") on an empty token; decode/verification failure
or a missing backchannel-logout event claim is surfaced as
`BackchannelLogoutError` as well; otherwise `sub` and `sid` are extracted
and `MemoryStateStore.delete_by_logout_token` is invoked.  The token
decoder/verifier is injected. -/
def ServerClient.handle_backchannel_logout (decode : String → Option DecodedLogoutToken)
    (now : Nat) (store : StoreData StateData) (logout_token : String) :
    Except ServerError (StoreData StateData) :=
  if logout_token = "" then
    Except.error (ServerError.backchannelLogout "Missing logout token")
  else
    match decode logout_token with
    | none => Except.error (ServerError.backchannelLogout "Invalid logout token")
    | some c =>
      if c.events.contains backchannelLogoutEvent then
        Except.ok (MemoryStateStore.delete_by_logout_token now store ⟨c.sub, c.sid⟩)
      else Except.error (ServerError.backchannelLogout "Invalid logout token")

/-! ## Concrete fixtures used by the witnesses -/

/-- Concrete session with a live default-audience token and a live
connection token (mirrors the cached-token tests). -/
def exampleState : StateData :=
  ⟨[("sub", "user123")], "id_token_123", ⟨"sid_1", none⟩,
    [⟨"default", "token_from_store", 1500, none⟩],
    [⟨"my_connection", "cached", 1500, none⟩]⟩

/-- Concrete session with an expired default-audience token, a live token
for another audience and a refresh token (mirrors the refresh test). -/
def exampleExpiredState : StateData :=
  ⟨[("sub", "user123")], "id_token_123", ⟨"sid_1", some "refresh_xyz"⟩,
    [⟨"default", "expired_token", 500, none⟩, ⟨"other", "other_token", 999999, none⟩],
    []⟩

/-- Concrete session with an empty refresh token and no connection tokens
(mirrors the no-refresh-token test). -/
def exampleNoRefreshState : StateData :=
  ⟨[("sub", "user123")], "id_token_123", ⟨"sid_1", some ""⟩, [], []⟩

/-- Session matching the example logout token claims. -/
def exampleMatchingState : StateData :=
  ⟨[("sub", "user_sub")], "id_token_a", ⟨"session_id_123", none⟩, [], []⟩

/-- Concrete three-record store: one session matching the example logout
claims, one decryptable non-matching session, one undecryptable record. -/
def exampleLogoutStore : StoreData StateData :=
  [("a", ⟨"a", exampleMatchingState, none⟩),
   ("b", ⟨"b", exampleState, none⟩),
   ("c", ⟨"zzz", exampleMatchingState, none⟩)]

/-- Concrete refresh/exchange stub used by witnesses. -/
def exampleExchange : String → String → TokenResponse :=
  fun _ _ => ⟨"new_token", 3600⟩

/-- Concrete pending transaction used by witnesses. -/
def exampleTransaction : TransactionData :=
  ⟨"verifier_123", "abc", none, some "app_state_1", none, none⟩

/-- Concrete authorization-code exchange stub used by witnesses. -/
def exampleCodeExchange : String → String → TokenExchangeResult :=
  fun _ _ => ⟨"access_1", "id_token_1", 3600, some "refresh_1", "user123", "sid123"⟩

/-- Concrete logout-token decoder stub used by witnesses (mirrors the
mocked `jwt.decode` of the backchannel-logout test). -/
def exampleDecode : String → Option DecodedLogoutToken :=
  fun s =>
    if s = "some_logout_token" then
      some ⟨[backchannelLogoutEvent], some "user_sub", some "session_id_123"⟩
    else none

/-! ## Lemmas about the store primitives -/

theorem lookup_delete_self {α : Type} (data : StoreData α) (identifier : String) :
    (MemoryStore.delete data identifier).lookup identifier = none := by
  unfold MemoryStore.delete
  induction data with
  | nil => rfl
  | cons kv tl ih =>
    by_cases h : kv.1 = identifier
    · simp [List.filter_cons, h, ih]
    · simp [List.filter_cons, h, List.lookup_cons, ih, bne, Ne.symm h]
      exact fun a b _ ha hk => ha hk.symm

theorem lookup_dictSet_self {α : Type} (data : StoreData α) (identifier : String)
    (value : Sealed α) : (dictSet data identifier value).lookup identifier = some value := by
  simp [dictSet, List.lookup]

theorem delete_idempotent {α : Type} (data : StoreData α) (identifier : String) :
    MemoryStore.delete (MemoryStore.delete data identifier) identifier
      = MemoryStore.delete data identifier := by
  unfold MemoryStore.delete
  rw [List.filter_filter]
  simp

theorem foldl_delete_eq_filter {α : Type} (ids : List String) (l : StoreData α) :
    ids.foldl (fun d i => MemoryStore.delete d i) l
      = l.filter (fun kv => !(ids.contains kv.1)) := by
  unfold MemoryStore.delete
  induction ids generalizing l with
  | nil => simp
  | cons i ids ih =>
    simp only [List.foldl_cons, ih, List.filter_filter]
    congr 1
    funext kv
    simp [List.contains_cons, bne, Bool.and_comm, not_or]
    tauto

/-- Set-then-get on the state store is an exact round trip: the seal is
keyed by the identifier and carries no expiration, so the payload comes
back unchanged and the store is untouched. -/
theorem stateStore_set_then_get (now : Nat) (store : StoreData StateData)
    (identifier : String) (st : StateData) :
    MemoryStateStore.get now (MemoryStateStore.set store identifier st) identifier
      = (some st, MemoryStateStore.set store identifier st) := by
  unfold MemoryStateStore.get MemoryStateStore.set
  rw [lookup_dictSet_self]
  simp [Sealed.decrypt, Sealed.notExpired]

/-! ## Lemmas about the replace-by-key upsert -/

theorem upsertBy_find_self {α : Type} (key : α → String) (x : α) (xs : List α) :
    (upsertBy key x xs).find? (fun t => key t == key x) = some x := by
  induction xs with
  | nil => simp [upsertBy, List.find?_cons]
  | cons t tl ih =>
    by_cases hk : key t = key x
    · simp [upsertBy, hk, List.find?_cons]
    · simp [upsertBy, hk, List.find?_cons, ih]

theorem upsertBy_filter_ne {α : Type} (key : α → String) (x : α) (xs : List α) :
    (upsertBy key x xs).filter (fun t => key t != key x)
      = xs.filter (fun t => key t != key x) := by
  induction xs with
  | nil => simp [upsertBy, List.filter_cons]
  | cons t tl ih =>
    by_cases hk : key t = key x
    · simp [upsertBy, hk, List.filter_cons]
    · simp [upsertBy, hk, List.filter_cons, ih]

theorem upsertBy_mem_key {α : Type} (key : α → String) (x : α) (xs : List α) (s : String)
    (hs : s ∈ (upsertBy key x xs).map key) : s ∈ xs.map key ∨ s = key x := by
  induction xs with
  | nil => simpa [upsertBy] using hs
  | cons t tl ih =>
    by_cases hk : key t = key x
    · simp [upsertBy, hk] at hs
      rcases hs with h | h
      · right; exact h
      · left; simp [h]
    · simp [upsertBy, hk] at hs
      rcases hs with h | h
      · left; simp [h]
      · obtain ⟨a, ha, rfl⟩ := h
        rcases ih (List.mem_map_of_mem key ha) with h2 | h2
        · left
          rw [List.map_cons, List.mem_cons]
          right; exact h2
        · right; exact h2

theorem upsertBy_nodup {α : Type} (key : α → String) (x : α) (xs : List α)
    (h : (xs.map key).Nodup) : ((upsertBy key x xs).map key).Nodup := by
  induction xs with
  | nil => simp [upsertBy]
  | cons t tl ih =>
    rw [List.map_cons, List.nodup_cons] at h
    by_cases hk : key t = key x
    · simp only [upsertBy, if_pos hk, List.map_cons, List.nodup_cons]
      exact ⟨hk ▸ h.1, h.2⟩
    · simp only [upsertBy, if_neg hk, List.map_cons, List.nodup_cons]
      refine ⟨?_, ih h.2⟩
      intro hmem
      rcases upsertBy_mem_key key x tl (key t) hmem with h2 | h2
      · exact h.1 h2
      · exact hk h2

theorem upsertBy_length_of_mem {α : Type} (key : α → String) (x : α) (xs : List α)
    (hmem : key x ∈ xs.map key) : (upsertBy key x xs).length = xs.length := by
  induction xs with
  | nil => simp at hmem
  | cons t tl ih =>
    by_cases hk : key t = key x
    · simp [upsertBy, hk]
    · rw [List.map_cons, List.mem_cons] at hmem
      rcases hmem with h | h
      · exact absurd h.symm hk
      · simp [upsertBy, hk, ih h]

/-! ## Lemmas about the logout scan -/

theorem logoutMatches_false_iff (now : Nat) (sub sid identifier : String)
    (enc : Sealed StateData) :
    logoutMatches now sub sid identifier enc = false
      ↔ ∃ d, enc.decrypt now identifier = some d ∧
          ¬(d.internal.sid = sid ∧ d.user.lookup "sub" = some sub) := by
  unfold logoutMatches
  cases hdec : enc.decrypt now identifier with
  | none => simp
  | some d => simp [hdec]

/-- Characterization of the logout scan on stores with unique identifiers:
a record survives exactly when it unseals and does not match the claims;
matching records and undecryptable records are deleted. -/
theorem delete_by_logout_token_mem (now : Nat) (store : StoreData StateData)
    (sub sid : String) (hsubne : sub ≠ "") (hsidne : sid ≠ "")
    (hnd : (store.map Prod.fst).Nodup) (kv : String × Sealed StateData) :
    kv ∈ MemoryStateStore.delete_by_logout_token now store ⟨some sub, some sid⟩
      ↔ kv ∈ store ∧ ∃ d, kv.2.decrypt now kv.1 = some d ∧
          ¬(d.internal.sid = sid ∧ d.user.lookup "sub" = some sub) := by
  unfold MemoryStateStore.delete_by_logout_token
  have hguard : (strFalsy (some sub) || strFalsy (some sid)) = false := by
    simp [strFalsy, hsubne, hsidne]
  rw [hguard]
  simp only [Bool.false_eq_true, if_false, Option.getD_some]
  rw [foldl_delete_eq_filter, List.mem_filter]
  have hconn : ∀ x : String,
      ((store.filter (fun kv => logoutMatches now sub sid kv.1 kv.2)).map Prod.fst).contains x
        = true ↔ ∃ kv2 ∈ store, logoutMatches now sub sid kv2.1 kv2.2 = true ∧ kv2.1 = x := by
    intro x
    rw [List.contains, List.elem_iff, List.mem_map]
    constructor
    · rintro ⟨kv2, hkv2, rfl⟩
      rw [List.mem_filter] at hkv2
      exact ⟨kv2, hkv2.1, hkv2.2, rfl⟩
    · rintro ⟨kv2, hkv2, hP, rfl⟩
      exact ⟨kv2, List.mem_filter.mpr ⟨hkv2, hP⟩, rfl⟩
  constructor
  · rintro ⟨hkv, hnc⟩
    refine ⟨hkv, ?_⟩
    rw [Bool.not_eq_true', ← Bool.not_eq_true] at hnc
    have hP : logoutMatches now sub sid kv.1 kv.2 = false := by
      rcases Bool.eq_false_or_eq_true (logoutMatches now sub sid kv.1 kv.2) with h | h
      · exact absurd ((hconn kv.1).mpr ⟨kv, hkv, h, rfl⟩) hnc
      · exact h
    exact (logoutMatches_false_iff now sub sid kv.1 kv.2).mp hP
  · rintro ⟨hkv, hd⟩
    refine ⟨hkv, ?_⟩
    have hP : logoutMatches now sub sid kv.1 kv.2 = false :=
      (logoutMatches_false_iff now sub sid kv.1 kv.2).mpr hd
    rw [Bool.not_eq_true', ← Bool.not_eq_true]
    intro hc
    obtain ⟨kv2, hkv2, hP2, hfst⟩ := (hconn kv.1).mp hc
    have : kv2 = kv := List.inj_on_of_nodup_map hnd hkv2 hkv hfst
    rw [this] at hP2
    rw [hP2] at hP
    simp at hP

/-! ## Lemmas about the shape of the post-state of token operations -/

theorem refreshTokenPath_state (refresh : String → String → TokenResponse) (now : Nat)
    (audience : String) (st : StateData) :
    (refreshTokenPath refresh now audience st).2.1 = st ∨
    ∃ nts : TokenSet, (refreshTokenPath refresh now audience st).2.1
        = { st with token_sets := upsertBy TokenSet.audience nts st.token_sets } := by
  unfold refreshTokenPath
  by_cases h : strFalsy st.internal.refresh_token = true
  · left; simp [h]
  · right
    refine ⟨⟨audience,
      (refresh (st.internal.refresh_token.getD "") audience).access_token,
      now + (refresh (st.internal.refresh_token.getD "") audience).expires_in, none⟩, ?_⟩
    simp [h]

theorem mintConnectionToken_state (exchange : String → String → TokenResponse) (now : Nat)
    (connection : String) (st : StateData) :
    (mintConnectionToken exchange now connection st).2.1 = st ∨
    ∃ ncts : ConnectionTokenSet, (mintConnectionToken exchange now connection st).2.1
        = { st with connection_token_sets :=
              upsertBy ConnectionTokenSet.connection ncts st.connection_token_sets } := by
  unfold mintConnectionToken
  by_cases h : strFalsy st.internal.refresh_token = true
  · left; simp [h]
  · right
    refine ⟨⟨connection,
      (exchange (st.internal.refresh_token.getD "") connection).access_token,
      now + (exchange (st.internal.refresh_token.getD "") connection).expires_in, none⟩, ?_⟩
    simp [h]

theorem get_access_token_state (refresh : String → String → TokenResponse) (now : Nat)
    (audience : String) (st : StateData) :
    (get_access_token refresh now audience st).2.1 = st ∨
    ∃ nts : TokenSet, (get_access_token refresh now audience st).2.1
        = { st with token_sets := upsertBy TokenSet.audience nts st.token_sets } := by
  unfold get_access_token
  cases hf : st.token_sets.find? (fun t => t.audience == audience) with
  | none =>
    simp only [hf]
    exact refreshTokenPath_state refresh now audience st
  | some ts =>
    simp only [hf]
    by_cases hlt : now < ts.expires_at
    · left; simp [hlt]
    · simp only [if_neg hlt]
      exact refreshTokenPath_state refresh now audience st

theorem get_access_token_for_connection_state (exchange : String → String → TokenResponse)
    (now : Nat) (connection : String) (st : StateData) :
    (get_access_token_for_connection exchange now connection st).2.1 = st ∨
    ∃ ncts : ConnectionTokenSet,
      (get_access_token_for_connection exchange now connection st).2.1
        = { st with connection_token_sets :=
              upsertBy ConnectionTokenSet.connection ncts st.connection_token_sets } := by
  unfold get_access_token_for_connection
  cases hf : st.connection_token_sets.find? (fun c => c.connection == connection) with
  | none =>
    simp only [hf]
    exact mintConnectionToken_state exchange now connection st
  | some cts =>
    simp only [hf]
    by_cases hlt : now < cts.expires_at
    · left; simp [hlt]
    · simp only [if_neg hlt]
      exact mintConnectionToken_state exchange now connection st

theorem get_access_token_preserves_key_nodup (refresh : String → String → TokenResponse)
    (now : Nat) (audience : String) (st : StateData)
    (h1 : (st.token_sets.map TokenSet.audience).Nodup)
    (h2 : (st.connection_token_sets.map ConnectionTokenSet.connection).Nodup) :
    (((get_access_token refresh now audience st).2.1.token_sets.map TokenSet.audience).Nodup ∧
     ((get_access_token refresh now audience st).2.1.connection_token_sets.map
        ConnectionTokenSet.connection).Nodup) := by
  rcases get_access_token_state refresh now audience st with h | ⟨nts, h⟩
  · rw [h]; exact ⟨h1, h2⟩
  · rw [h]; exact ⟨upsertBy_nodup TokenSet.audience nts st.token_sets h1, h2⟩

theorem get_access_token_for_connection_preserves_key_nodup
    (exchange : String → String → TokenResponse) (now : Nat) (connection : String)
    (st : StateData)
    (h1 : (st.token_sets.map TokenSet.audience).Nodup)
    (h2 : (st.connection_token_sets.map ConnectionTokenSet.connection).Nodup) :
    (((get_access_token_for_connection exchange now connection st).2.1.token_sets.map
        TokenSet.audience).Nodup ∧
     ((get_access_token_for_connection exchange now connection
        st).2.1.connection_token_sets.map ConnectionTokenSet.connection).Nodup) := by
  rcases get_access_token_for_connection_state exchange now connection st with h | ⟨ncts, h⟩
  · rw [h]; exact ⟨h1, h2⟩
  · rw [h]
    exact ⟨h1, upsertBy_nodup ConnectionTokenSet.connection ncts st.connection_token_sets h2⟩

/-! ## Claim theorems -/

/-- C6: for every identifier and state data, `StateStore.set` followed by
`StateStore.get` (with no intervening expiry or mutation) returns data
semantically equal to the original, including the `internal` field, which
the store itself does not hide. -/
theorem claim_stateStore_roundtrip (now : Nat) (store : StoreData StateData)
    (identifier : String) (st : StateData) :
    MemoryStateStore.get now (MemoryStateStore.set store identifier st) identifier
      = (some st, MemoryStateStore.set store identifier st) :=
  stateStore_set_then_get now store identifier st

/-- C5 (code bug): `MemoryStateStore.set` never attaches the configured
`absolute_duration` to the seal (the source calls `self.encrypt` with no
expiration and never reads `self._absolute_duration`), so a stored session
record remains readable at every later time — in particular after the
default 3-day TTL of 259200 seconds has elapsed — contradicting the
class's own documentation ("Time in seconds before data expires"). -/
theorem claim_stateStore_record_never_expires (t : Nat) (store : StoreData StateData)
    (identifier : String) (st : StateData) :
    (MemoryStateStore.get t (MemoryStateStore.set store identifier st) identifier).1
      = some st := by
  rw [stateStore_set_then_get]

/-- C10: when the logout-token claims lack a `sub` or a `sid` (absent or
empty), `delete_by_logout_token` returns without scanning and leaves every
stored record unchanged — no record is deleted, not even undecryptable
ones. -/
theorem claim_delete_by_logout_token_missing_claims_noop (now : Nat)
    (data : StoreData StateData) (claims : LogoutClaims)
    (h : (strFalsy claims.sub || strFalsy claims.sid) = true) :
    MemoryStateStore.delete_by_logout_token now data claims = data := by
  unfold MemoryStateStore.delete_by_logout_token
  rw [if_pos h]

/-- Witness for C10: claims with an empty `sub` leave a store containing a
matching record and an undecryptable record fully unchanged. -/
theorem claim_delete_by_logout_token_missing_claims_noop_witness :
    (strFalsy (some "") || strFalsy (some "session_id_123")) = true ∧
    MemoryStateStore.delete_by_logout_token 1000 exampleLogoutStore
        ⟨some "", some "session_id_123"⟩ = exampleLogoutStore :=
  ⟨by decide,
    claim_delete_by_logout_token_missing_claims_noop 1000 exampleLogoutStore
      ⟨some "", some "session_id_123"⟩ (by decide)⟩

/-- C4: for both stores, a stored record that fails to unseal (corrupt or
expired) is deleted by `get`, which returns absent rather than raising; a
subsequent `get` of the same identifier also returns absent. -/
theorem claim_store_get_self_heals (now now2 : Nat)
    (storeS : StoreData StateData) (storeT : StoreData TransactionData)
    (identifier : String) (encS : Sealed StateData) (encT : Sealed TransactionData)
    (hS : storeS.lookup identifier = some encS)
    (hSd : encS.decrypt now identifier = none)
    (hT : storeT.lookup identifier = some encT)
    (hTd : encT.decrypt now identifier = none) :
    MemoryStateStore.get now storeS identifier
        = (none, MemoryStore.delete storeS identifier) ∧
    (MemoryStateStore.get now2 (MemoryStateStore.get now storeS identifier).2 identifier).1
        = none ∧
    MemoryTransactionStore.get now storeT identifier
        = (none, MemoryStore.delete storeT identifier) ∧
    (MemoryTransactionStore.get now2
        (MemoryTransactionStore.get now storeT identifier).2 identifier).1 = none := by
  have h1 : MemoryStateStore.get now storeS identifier
      = (none, MemoryStore.delete storeS identifier) := by
    unfold MemoryStateStore.get
    rw [hS]
    simp [hSd]
  have h2 : MemoryTransactionStore.get now storeT identifier
      = (none, MemoryStore.delete storeT identifier) := by
    unfold MemoryTransactionStore.get
    rw [hT]
    simp [hTd]
  refine ⟨h1, ?_, h2, ?_⟩
  · rw [h1]
    unfold MemoryStateStore.get
    simp [lookup_delete_self]
  · rw [h2]
    unfold MemoryTransactionStore.get
    simp [lookup_delete_self]

/-- Witness for C4: a record sealed with expiration 10 read at time 1000
is deleted and absent in both stores. -/
theorem claim_store_get_self_heals_witness :
    ([("s1", (⟨"s1", exampleState, some 10⟩ : Sealed StateData))].lookup "s1"
        = some ⟨"s1", exampleState, some 10⟩) ∧
    ((⟨"s1", exampleState, some 10⟩ : Sealed StateData).decrypt 1000 "s1" = none) ∧
    MemoryStateStore.get 1000 [("s1", ⟨"s1", exampleState, some 10⟩)] "s1"
        = (none, []) ∧
    (MemoryStateStore.get 1001
        (MemoryStateStore.get 1000 [("s1", ⟨"s1", exampleState, some 10⟩)] "s1").2 "s1").1
        = none ∧
    MemoryTransactionStore.get 1000 [("s1", ⟨"s1", exampleTransaction, some 10⟩)] "s1"
        = (none, []) ∧
    (MemoryTransactionStore.get 1001
        (MemoryTransactionStore.get 1000
          [("s1", ⟨"s1", exampleTransaction, some 10⟩)] "s1").2 "s1").1 = none := by
  have h := claim_store_get_self_heals 1000 1001
    [("s1", ⟨"s1", exampleState, some 10⟩)]
    [("s1", ⟨"s1", exampleTransaction, some 10⟩)] "s1"
    ⟨"s1", exampleState, some 10⟩ ⟨"s1", exampleTransaction, some 10⟩
    (by decide) (by decide) (by decide) (by decide)
  refine ⟨by decide, by decide, ?_, h.2.1, ?_, h.2.2.2⟩
  · rw [h.1]; decide
  · rw [h.2.2.1]; decide

/-- C3: a cached token-set entry for the requested audience (resp. a
cached connection-token-set entry for the requested connection) whose
`expires_at` is strictly greater than the current time is returned
directly: no network call and no refresh exchange is performed, and the
session state is unchanged. -/
theorem claim_cached_token_fast_path
    (refresh exchange : String → String → TokenResponse) (now : Nat)
    (audience connection : String) (st st2 : StateData)
    (ts : TokenSet) (cts : ConnectionTokenSet)
    (hts : st.token_sets.find? (fun t => t.audience == audience) = some ts)
    (hexp : now < ts.expires_at)
    (hcts : st2.connection_token_sets.find? (fun x => x.connection == connection)
        = some cts)
    (hcexp : now < cts.expires_at) :
    get_access_token refresh now audience st = (Except.ok ts.access_token, st, 0) ∧
    get_access_token_for_connection exchange now connection st2
        = (Except.ok cts.access_token, st2, 0) := by
  constructor
  · unfold get_access_token
    rw [hts]
    simp [hexp]
  · unfold get_access_token_for_connection
    rw [hcts]
    simp [hcexp]

/-- Witness for C3: the cached default-audience token and the cached
connection token in `exampleState` are returned with zero exchanges. -/
theorem claim_cached_token_fast_path_witness :
    (exampleState.token_sets.find? (fun t => t.audience == "default")
        = some ⟨"default", "token_from_store", 1500, none⟩) ∧
    (1000 < 1500) ∧
    get_access_token exampleExchange 1000 "default" exampleState
        = (Except.ok "token_from_store", exampleState, 0) ∧
    get_access_token_for_connection exampleExchange 1000 "my_connection" exampleState
        = (Except.ok "cached", exampleState, 0) := by
  have h := claim_cached_token_fast_path exampleExchange exampleExchange 1000
    "default" "my_connection" exampleState exampleState
    ⟨"default", "token_from_store", 1500, none⟩ ⟨"my_connection", "cached", 1500, none⟩
    (by decide) (by decide) (by decide) (by decide)
  exact ⟨by decide, by decide, h.1, h.2⟩

/-- C9: with a falsy (empty or absent) refresh token and no cached
connection tokens, `get_access_token_for_connection` fails for every
requested connection with `AccessTokenForConnectionError`
("A refresh token was not found") and leaves the state unchanged, with no
exchange performed. -/
theorem claim_connection_token_no_refresh_fails
    (exchange : String → String → TokenResponse) (now : Nat) (connection : String)
    (st : StateData) (hrt : strFalsy st.internal.refresh_token = true)
    (hcts : st.connection_token_sets = []) :
    get_access_token_for_connection exchange now connection st
      = (Except.error
          (ServerError.accessTokenForConnection "A refresh token was not found"), st, 0) := by
  unfold get_access_token_for_connection
  rw [hcts]
  unfold mintConnectionToken
  simp [hrt]

/-- Witness for C9: the empty-refresh-token session fails with the
expected error for connection `my_connection`. -/
theorem claim_connection_token_no_refresh_fails_witness :
    strFalsy exampleNoRefreshState.internal.refresh_token = true ∧
    exampleNoRefreshState.connection_token_sets = [] ∧
    get_access_token_for_connection exampleExchange 1000 "my_connection"
        exampleNoRefreshState
      = (Except.error
          (ServerError.accessTokenForConnection "A refresh token was not found"),
          exampleNoRefreshState, 0) :=
  ⟨by decide, by decide,
    claim_connection_token_no_refresh_fails exampleExchange 1000 "my_connection"
      exampleNoRefreshState (by decide) (by decide)⟩

/-- C8: `logout` is total (never raises), its post-store is exactly the
store with the session deleted (so the returned URL is only produced
against the already-deleted store), it is idempotent — calling it on a
store whose session record was already deleted returns the identical
result — and the returned URL is the identity-provider logout endpoint
carrying the configured `client_id` and the URL-encoded `returnTo`
target (`/after_logout` encodes to `%2Fafter_logout` as in the tests). -/
theorem claim_logout_idempotent_and_url (cfg : ClientConfig)
    (store : StoreData StateData) (sessionId return_to : String) :
    (ServerClient.logout cfg store sessionId return_to).2
        = MemoryStore.delete store sessionId ∧
    ((ServerClient.logout cfg store sessionId return_to).2).lookup sessionId = none ∧
    ServerClient.logout cfg (MemoryStore.delete store sessionId) sessionId return_to
        = ServerClient.logout cfg store sessionId return_to ∧
    (ServerClient.logout cfg store sessionId return_to).1
        = "https://" ++ cfg.domain ++ "/v2/logout?"
            ++ ("client_id=" ++ cfg.client_id)
            ++ ("&" ++ ("returnTo=" ++ urlEncode return_to)) ∧
    urlEncode "/after_logout" = "%2Fafter_logout" := by
  refine ⟨rfl, lookup_delete_self store sessionId, ?_, ?_, by decide⟩
  · unfold ServerClient.logout
    rw [delete_idempotent]
  · unfold ServerClient.logout
    have h1 : ("/v2/logout?" : String) ++ "client_id=" = "/v2/logout?client_id=" := rfl
    have h2 : ("&" : String) ++ "returnTo=" = "&returnTo=" := rfl
    simp only [← String.append_assoc]
    rw [String.append_assoc ("https://" ++ cfg.domain) "/v2/logout?" "client_id=", h1,
      String.append_assoc _ "&" "returnTo=", h2]

/-- C7: with a pending transaction matching the callback URL's `state`,
the first `complete_interactive_login` succeeds — returning the
transaction's `app_state`, persisting the fresh session and deleting the
transaction — and a second call with the same callback URL fails with
`MissingTransactionError` because `TransactionStore.get` now returns
absent. -/
theorem claim_complete_interactive_login_single_use
    (exchange exchange2 : String → String → TokenExchangeResult) (now now2 : Nat)
    (sessionId sessionId2 : String) (txStore : StoreData TransactionData)
    (stateStore stateStore2 : StoreData StateData) (url code state : String)
    (enc : Sealed TransactionData) (tx : TransactionData)
    (hcode : (queryParams url).lookup "code" = some code)
    (hstate : (queryParams url).lookup "state" = some state)
    (henc : txStore.lookup state = some enc)
    (hdec : enc.decrypt now state = some tx) :
    complete_interactive_login exchange now sessionId txStore stateStore url
        = Except.ok (tx.app_state, MemoryStore.delete txStore state,
            MemoryStateStore.set stateStore sessionId
              (buildStateData now (tx.audience.getD "default")
                (exchange code tx.code_verifier))) ∧
    (MemoryTransactionStore.get now2 (MemoryStore.delete txStore state) state).1 = none ∧
    complete_interactive_login exchange2 now2 sessionId2
        (MemoryStore.delete txStore state) stateStore2 url
        = Except.error (ServerError.missingTransaction "The transaction is missing.") := by
  have hget : MemoryTransactionStore.get now txStore state = (some tx, txStore) := by
    unfold MemoryTransactionStore.get
    rw [henc]
    simp [hdec]
  have hget2 : MemoryTransactionStore.get now2 (MemoryStore.delete txStore state) state
      = (none, MemoryStore.delete txStore state) := by
    unfold MemoryTransactionStore.get
    simp [lookup_delete_self]
  refine ⟨?_, by rw [hget2], ?_⟩
  · unfold complete_interactive_login
    simp only [hcode, hstate]
    simp [hget]
  · unfold complete_interactive_login
    simp only [hcode, hstate]
    simp [hget2]

/-- Witness for C7: a concrete pending transaction keyed `abc`, consumed
through the callback URL of the tests; the second call fails. -/
theorem claim_complete_interactive_login_single_use_witness :
    ((queryParams "https://auth0.local/callback?code=123&state=abc").lookup "code"
        = some "123") ∧
    ((queryParams "https://auth0.local/callback?code=123&state=abc").lookup "state"
        = some "abc") ∧
    ([("abc", (⟨"abc", exampleTransaction, some 1060⟩ : Sealed TransactionData))].lookup "abc"
        = some ⟨"abc", exampleTransaction, some 1060⟩) ∧
    ((⟨"abc", exampleTransaction, some 1060⟩ : Sealed TransactionData).decrypt 1000 "abc"
        = some exampleTransaction) ∧
    complete_interactive_login exampleCodeExchange 1000 "sess1"
        [("abc", ⟨"abc", exampleTransaction, some 1060⟩)] []
        "https://auth0.local/callback?code=123&state=abc"
      = Except.ok (exampleTransaction.app_state,
          MemoryStore.delete [("abc", ⟨"abc", exampleTransaction, some 1060⟩)] "abc",
          MemoryStateStore.set [] "sess1"
            (buildStateData 1000 (exampleTransaction.audience.getD "default")
              (exampleCodeExchange "123" exampleTransaction.code_verifier))) ∧
    complete_interactive_login exampleCodeExchange 1001 "sess1"
        (MemoryStore.delete [("abc", ⟨"abc", exampleTransaction, some 1060⟩)] "abc") []
        "https://auth0.local/callback?code=123&state=abc"
      = Except.error (ServerError.missingTransaction "The transaction is missing.") := by
  have h := claim_complete_interactive_login_single_use exampleCodeExchange
    exampleCodeExchange 1000 1001 "sess1" "sess1"
    [("abc", ⟨"abc", exampleTransaction, some 1060⟩)] [] []
    "https://auth0.local/callback?code=123&state=abc" "123" "abc"
    ⟨"abc", exampleTransaction, some 1060⟩ exampleTransaction
    (by decide) (by decide) (by decide) (by decide)
  exact ⟨by decide, by decide, by decide, by decide, h.1, h.2.2⟩

/-- C2: refreshing an expired audience entry (refresh token present)
replaces exactly that audience's entry in `token_sets` — the entry for the
requested audience becomes the freshly minted one, all entries for other
audiences are untouched, the length is unchanged — `connection_token_sets`
and all other session fields are untouched, and after any
`get_access_token` / `get_access_token_for_connection` operation the
audience keys of `token_sets` and the connection keys of
`connection_token_sets` remain duplicate-free. -/
theorem claim_refresh_replaces_only_target_audience
    (refresh : String → String → TokenResponse) (now : Nat) (audience : String)
    (st : StateData) (ts : TokenSet) (rt : String)
    (hts : st.token_sets.find? (fun t => t.audience == audience) = some ts)
    (hexp : ts.expires_at ≤ now)
    (hrt : st.internal.refresh_token = some rt) (hrtne : rt ≠ "")
    (hnd : (st.token_sets.map TokenSet.audience).Nodup) :
    (∃ st2 : StateData,
      get_access_token refresh now audience st
          = (Except.ok (refresh rt audience).access_token, st2, 1) ∧
      st2.token_sets.find? (fun t => t.audience == audience)
          = some ⟨audience, (refresh rt audience).access_token,
              now + (refresh rt audience).expires_in, none⟩ ∧
      st2.token_sets.filter (fun t => t.audience != audience)
          = st.token_sets.filter (fun t => t.audience != audience) ∧
      st2.token_sets.length = st.token_sets.length ∧
      (st2.token_sets.map TokenSet.audience).Nodup ∧
      st2.connection_token_sets = st.connection_token_sets ∧
      st2.user = st.user ∧ st2.id_token = st.id_token ∧ st2.internal = st.internal) ∧
    (∀ (ex : String → String → TokenResponse) (n : Nat) (a : String) (s : StateData),
      (s.token_sets.map TokenSet.audience).Nodup →
      (s.connection_token_sets.map ConnectionTokenSet.connection).Nodup →
      (((get_access_token ex n a s).2.1.token_sets.map TokenSet.audience).Nodup ∧
       ((get_access_token ex n a s).2.1.connection_token_sets.map
          ConnectionTokenSet.connection).Nodup ∧
       ((get_access_token_for_connection ex n a s).2.1.token_sets.map
          TokenSet.audience).Nodup ∧
       ((get_access_token_for_connection ex n a s).2.1.connection_token_sets.map
          ConnectionTokenSet.connection).Nodup)) := by
  constructor
  · have hcond : ¬ now < ts.expires_at := by omega
    have hta : ts.audience = audience := by
      have := List.find?_some hts
      simpa using this
    have hmemaud : audience ∈ st.token_sets.map TokenSet.audience := by
      rw [← hta]
      exact List.mem_map_of_mem TokenSet.audience (List.mem_of_find?_eq_some hts)
    refine ⟨{ st with
        token_sets := upsertBy TokenSet.audience
          (⟨audience, (refresh rt audience).access_token,
            now + (refresh rt audience).expires_in, none⟩ : TokenSet)
          st.token_sets },
      ?_, ?_, ?_, ?_, ?_, rfl, rfl, rfl, rfl⟩
    · unfold get_access_token
      rw [hts]
      simp only [if_neg hcond]
      unfold refreshTokenPath
      rw [hrt]
      simp [strFalsy, hrtne]
    · exact upsertBy_find_self TokenSet.audience
        (⟨audience, (refresh rt audience).access_token,
          now + (refresh rt audience).expires_in, none⟩ : TokenSet) st.token_sets
    · exact upsertBy_filter_ne TokenSet.audience
        (⟨audience, (refresh rt audience).access_token,
          now + (refresh rt audience).expires_in, none⟩ : TokenSet) st.token_sets
    · exact upsertBy_length_of_mem TokenSet.audience
        (⟨audience, (refresh rt audience).access_token,
          now + (refresh rt audience).expires_in, none⟩ : TokenSet) st.token_sets hmemaud
    · exact upsertBy_nodup TokenSet.audience
        (⟨audience, (refresh rt audience).access_token,
          now + (refresh rt audience).expires_in, none⟩ : TokenSet) st.token_sets hnd
  · intro ex n a s h1 h2
    obtain ⟨p1, p2⟩ := get_access_token_preserves_key_nodup ex n a s h1 h2
    obtain ⟨q1, q2⟩ := get_access_token_for_connection_preserves_key_nodup ex n a s h1 h2
    exact ⟨p1, p2, q1, q2⟩

/-- Witness for C2: refreshing the expired default-audience entry of the
concrete session yields the minted token and the untouched `other`
entry. -/
theorem claim_refresh_replaces_only_target_audience_witness :
    (exampleExpiredState.token_sets.find? (fun t => t.audience == "default")
        = some ⟨"default", "expired_token", 500, none⟩) ∧
    (500 ≤ 1000) ∧
    (exampleExpiredState.internal.refresh_token = some "refresh_xyz") ∧
    ("refresh_xyz" ≠ "") ∧
    (exampleExpiredState.token_sets.map TokenSet.audience).Nodup ∧
    (∃ st2 : StateData,
      get_access_token exampleExchange 1000 "default" exampleExpiredState
          = (Except.ok (exampleExchange "refresh_xyz" "default").access_token, st2, 1) ∧
      st2.token_sets.filter (fun t => t.audience != "default")
          = exampleExpiredState.token_sets.filter (fun t => t.audience != "default")) := by
  have h := claim_refresh_replaces_only_target_audience exampleExchange 1000 "default"
    exampleExpiredState ⟨"default", "expired_token", 500, none⟩ "refresh_xyz"
    (by decide) (by decide) (by decide) (by decide) (by decide)
  obtain ⟨st2, heq, _, hfil, _⟩ := h.1
  exact ⟨by decide, by decide, by decide, by decide, by decide, st2, heq, hfil⟩

/-- C1: `handle_backchannel_logout` with an empty logout token fails with
`BackchannelLogoutError` ("Missing logout token"); with a valid token
carrying the backchannel-logout event and non-empty `sub`/`sid` it invokes
`delete_by_logout_token`, which — on a store with unique identifiers —
retains exactly the records that unseal and do not match both `sid`
(internal session id) and `sub` (user subject): matching records and
records that fail to unseal are deleted, and no other decryptable record
is deleted. -/
theorem claim_backchannel_logout_deletes_exactly_matching
    (decode : String → Option DecodedLogoutToken) (now : Nat)
    (store : StoreData StateData) (token sub sid : String) (c : DecodedLogoutToken)
    (htok : ¬ token = "") (hdecode : decode token = some c)
    (hev : c.events.contains backchannelLogoutEvent = true)
    (hsub : c.sub = some sub) (hsid : c.sid = some sid)
    (hsubne : sub ≠ "") (hsidne : sid ≠ "")
    (hnd : (store.map Prod.fst).Nodup) :
    (∀ (dec2 : String → Option DecodedLogoutToken) (n : Nat) (s : StoreData StateData),
      ServerClient.handle_backchannel_logout dec2 n s ""
        = Except.error (ServerError.backchannelLogout "Missing logout token")) ∧
    ServerClient.handle_backchannel_logout decode now store token
      = Except.ok (MemoryStateStore.delete_by_logout_token now store ⟨some sub, some sid⟩) ∧
    (∀ kv : String × Sealed StateData,
      kv ∈ MemoryStateStore.delete_by_logout_token now store ⟨some sub, some sid⟩
        ↔ kv ∈ store ∧ ∃ d, kv.2.decrypt now kv.1 = some d ∧
            ¬(d.internal.sid = sid ∧ d.user.lookup "sub" = some sub)) := by
  refine ⟨?_, ?_,
    fun kv => delete_by_logout_token_mem now store sub sid hsubne hsidne hnd kv⟩
  · intro dec2 n s
    unfold ServerClient.handle_backchannel_logout
    simp
  · unfold ServerClient.handle_backchannel_logout
    rw [if_neg htok]
    simp only [hdecode]
    simp [hsub, hsid]
    exact List.mem_of_elem_eq_true hev

/-- Witness for C1: the mocked logout token of the test suite deletes the
matching session and the undecryptable record of the concrete store and
keeps the non-matching decryptable session. -/
theorem claim_backchannel_logout_deletes_exactly_matching_witness :
    (¬ ("some_logout_token" : String) = "") ∧
    (exampleDecode "some_logout_token"
        = some ⟨[backchannelLogoutEvent], some "user_sub", some "session_id_123"⟩) ∧
    (exampleLogoutStore.map Prod.fst).Nodup ∧
    ServerClient.handle_backchannel_logout exampleDecode 1000 exampleLogoutStore
        "some_logout_token"
      = Except.ok (MemoryStateStore.delete_by_logout_token 1000 exampleLogoutStore
          ⟨some "user_sub", some "session_id_123"⟩) ∧
    MemoryStateStore.delete_by_logout_token 1000 exampleLogoutStore
        ⟨some "user_sub", some "session_id_123"⟩
      = [("b", ⟨"b", exampleState, none⟩)] := by
  have h := claim_backchannel_logout_deletes_exactly_matching exampleDecode 1000
    exampleLogoutStore "some_logout_token" "user_sub" "session_id_123"
    ⟨[backchannelLogoutEvent], some "user_sub", some "session_id_123"⟩
    (by decide) (by decide) (by decide) (by decide) (by decide)
    (by decide) (by decide) (by decide)
  exact ⟨by decide, by decide, by decide, h.2.1, by decide⟩
